import Mathlib

/-!
Verification development for the Optimus Echo Predictor repository.

The repository's frontend (React, in `frontend/src` and the webcam gesture
component) is embedded directly from the JavaScript source.  The backend
risk-scoring engine (`scoreScenario`, `scoreGestureBuffer`, `encodeSample`,
FastAPI `server.py` / `esn_module.py`) is not present in the source tree we
were given, so those operations are modelled from the specification, as
marked in the doc comments below.  Floating-point numbers are modelled as
exact rationals (`ℚ`).
-/

namespace OptimusEcho

/-- Task type of a factory scenario, from the data model
(assembly_line, quality_check, material_handling, collaborative_work). -/
inductive TaskType where
  | assemblyLine
  | qualityCheck
  | materialHandling
  | collaborativeWork
deriving DecidableEq, Repr

/-- Scenario status, from the data model (draft or analyzed). -/
inductive ScenarioStatus where
  | draft
  | analyzed
deriving DecidableEq, Repr

/-- Discrete risk level buckets of an assessment. -/
inductive RiskLevel where
  | low
  | medium
  | high
  | critical
deriving DecidableEq, Repr

/-- Typed echo-risk findings attached to a risk assessment. -/
inductive EchoRiskType where
  | gestureMisread
  | proximityBreach
  | fatigueInduced
  | crowdingInterference
deriving DecidableEq, Repr

/-- Errors of the scoring core: malformed input or too-short gesture buffer. -/
inductive ScoringError where
  | invalidInput
  | insufficientData
deriving DecidableEq, Repr

/-- A scenario configuration, with the fields of the data model.
`worker_count` and `robot_count` are positive integers, `shift_duration_hours`
and `proximity_threshold_meters` are modelled as rationals. -/
structure Scenario where
  id : String
  name : String
  task_type : TaskType
  worker_count : Nat
  robot_count : Nat
  shift_duration_hours : ℚ
  proximity_threshold_meters : ℚ
  description : Option String
  status : ScenarioStatus
  created_at : String
deriving DecidableEq, Repr

/-- A normalized 3-d position attached to a gesture sample. -/
structure Position where
  x : ℚ
  y : ℚ
  z : ℚ
deriving DecidableEq, Repr

/-- A validated gesture sample of the data model: label, confidence,
position, timestamp and source tag. -/
structure GestureSample where
  gesture_type : String
  confidence : ℚ
  position : Position
  timestamp : String
  source : String
deriving DecidableEq, Repr

/-- A raw gesture sample as it arrives from an external producer; the
position may be missing, which the encoder rejects as `invalidInput`. -/
structure RawGestureSample where
  gesture_type : String
  confidence : ℚ
  position : Option Position
  timestamp : String
  source : String
deriving DecidableEq, Repr

/-- One echo-risk entry of an assessment: type, probability, description. -/
structure EchoRisk where
  etype : EchoRiskType
  probability : ℚ
  description : String
deriving DecidableEq, Repr

/-- One flagged anomaly of the sequence path: a kind tag and the value of
the contributing metric. -/
structure Anomaly where
  atype : String
  metric : ℚ
deriving DecidableEq, Repr

/-- Reservoir details attached to sequence-path assessments. -/
structure ReservoirDetails where
  activation : ℚ
  state_variance : ℚ
  gestures_analyzed : Nat
  anomalies_detected : Nat
  model_type : String
deriving DecidableEq, Repr

/-- The content of a risk assessment produced by the scoring engine. -/
structure RiskAssessment where
  overall_risk_score : ℚ
  risk_level : RiskLevel
  gesture_accuracy : ℚ
  mitigated_errors_percent : ℚ
  symbiosis_index : ℚ
  echo_risks : List EchoRisk
  recommendations : List String
  anomalies : List Anomaly
  reservoir_details : Option ReservoirDetails
deriving DecidableEq, Repr

/-! ## Webcam gesture adapter, embedded from `WebcamGesture` (detectGestures) -/

/-- A MediaPipe hand landmark; `z` may be absent (the source reads
`landmark.z || 0`). Embedded from the `WebcamGesture` component. -/
structure Landmark where
  x : ℚ
  y : ℚ
  z : Option ℚ
deriving DecidableEq, Repr

/-- The GESTURE_TYPE_MAP of the `WebcamGesture` component: MediaPipe
category names mapped to the repository's gesture types. -/
def GESTURE_TYPE_MAP (s : String) : Option String :=
  if s = "Closed_Fist" then some "stop"
  else if s = "Open_Palm" then some "stop"
  else if s = "Pointing_Up" then some "point"
  else if s = "Thumb_Up" then some "proceed"
  else if s = "Thumb_Down" then some "slow_down"
  else if s = "Victory" then some "proceed"
  else if s = "ILoveYou" then some "wave"
  else if s = "None" then some "unknown"
  else none

/-- `GESTURE_TYPE_MAP[gestureName] || 'unknown'` from the source:
look the MediaPipe label up and fall back to "unknown". -/
def mapGestureLabel (s : String) : String :=
  (GESTURE_TYPE_MAP s).getD "unknown"

/-- Sample construction in `detectGestures`: gesture type via the map with
"unknown" fallback, confidence from the recognizer, and position from the
first hand landmark when available, else the default position (0, 1, 0). -/
def mkWebcamSample (gestureName : String) (conf : ℚ) (lm : Option Landmark)
    (ts : String) : RawGestureSample :=
  { gesture_type := mapGestureLabel gestureName
    confidence := conf
    position := some (match lm with
      | some l => { x := l.x * 4 - 2, y := (1 - l.y) * 2, z := l.z.getD 0 }
      | none => { x := 0, y := 1, z := 0 })
    timestamp := ts
    source := "mediapipe_webcam" }

/-- JavaScript `arr.slice(-n)`: the last `min n (length arr)` elements. -/
def sliceLast (n : Nat) (xs : List α) : List α :=
  xs.drop (xs.length - n)

/-- Buffer update in `detectGestures`:
`[...prev, newGesture].slice(-50)` — append and keep the last 50. -/
def appendGesture (buf : List RawGestureSample) (g : RawGestureSample) :
    List RawGestureSample :=
  sliceLast 50 (buf ++ [g])

/-! ## Sequence feature encoder

Modelled from the spec: the backend feature encoder (`esn_module.py`,
absent from the source tree) per §4.1 — a 7-wide one-hot over the canonical
gesture vocabulary, then confidence, then position x and y. -/

/-- Modelled from the spec: the canonical gesture vocabulary of §4.1,
missing with the backend `esn_module.py`. -/
def gestureVocab : List String :=
  ["stop", "proceed", "slow_down", "handover", "point", "wave", "emergency"]

/-- Modelled from the spec: `encodeSample` of §4.1, missing with the backend
`esn_module.py`.  One-hot over `gestureVocab` (all-zero for an unknown
label), then confidence, then position x and y (z dropped). -/
def encodeSample (s : GestureSample) : List ℚ :=
  gestureVocab.map (fun v => if s.gesture_type = v then 1 else 0)
    ++ [s.confidence, s.position.x, s.position.y]

/-- Modelled from the spec: the fallible encoder contract of §4.1, missing
with the backend — a raw sample with a missing position is rejected with
`invalidInput`; otherwise it is encoded like `encodeSample`. -/
def encodeRawSample (s : RawGestureSample) : Except ScoringError (List ℚ) :=
  match s.position with
  | none => .error .invalidInput
  | some p =>
      .ok (gestureVocab.map (fun v => if s.gesture_type = v then 1 else 0)
        ++ [s.confidence, p.x, p.y])

/-! ## Risk scoring engine — scenario path

Modelled from the spec: the backend scenario scoring (`server.py`, absent
from the source tree) per §4.2, with the documented constants chosen per
the design notes (weights are documented constants; only ordering and
monotonicity are normative). -/

/-- Clamp a rational to the interval [0, 1]. -/
def clamp01 (q : ℚ) : ℚ := max 0 (min 1 q)

/-- Modelled from the spec: base risk per task type (§4.2 step 1, missing
with the backend): assembly_line and quality_check low, material_handling
and collaborative_work high. -/
def baseRisk : TaskType → ℚ
  | .assemblyLine => 3/10
  | .qualityCheck => 1/5
  | .materialHandling => 1/2
  | .collaborativeWork => 1/2

/-- Modelled from the spec: density factor (§4.2 step 2, missing with the
backend) — grows with the combined count and with the robot-to-worker
ratio, capped at 1. -/
def densityFactor (w r : Nat) : ℚ :=
  min 1 (((w : ℚ) + r) / 100 + (r : ℚ) / (4 * w))

/-- Modelled from the spec: fatigue factor (§4.2 step 3, missing with the
backend) — zero up to the 8-hour threshold, then growing, capped at 1. -/
def fatigueFactor (h : ℚ) : ℚ :=
  if h ≤ 8 then 0 else min 1 ((h - 8) / 4)

/-- Modelled from the spec: proximity factor (§4.2 step 4, missing with the
backend) — risk grows as the allowed proximity shrinks. -/
def proximityFactor (p : ℚ) : ℚ :=
  clamp01 ((2 - p) / (3/2))

/-- Modelled from the spec: the weighted combination of the four factors
(§4.2 step 5, missing with the backend), clamped to [0, 1].  The weights
3/10, 1/4, 3/10 are the documented constants of this model. -/
def overallScenarioRisk (t : TaskType) (w r : Nat) (h p : ℚ) : ℚ :=
  clamp01 (baseRisk t + (3/10) * densityFactor w r
    + (1/4) * fatigueFactor h + (3/10) * proximityFactor p)

/-- Modelled from the spec: bucketing of the overall risk score into a risk
level (§4.2 step 6, missing with the backend), with the documented
thresholds and the half-open convention: a score equal to a threshold maps
to the higher bucket. -/
def bucketRisk (q : ℚ) : RiskLevel :=
  if q < 3/10 then .low
  else if q < 11/20 then .medium
  else if q < 4/5 then .high
  else .critical

/-- Static description per echo-risk type. -/
def echoRiskDescription : EchoRiskType → String
  | .gestureMisread => "Risk of misreading worker gestures"
  | .proximityBreach => "Risk of workers entering robot safety zones"
  | .fatigueInduced => "Risk from extended shift fatigue"
  | .crowdingInterference => "Risk from high worker and robot density"

/-- Static advisory string per echo-risk type (§4.2 step 9). -/
def recommendationFor : EchoRiskType → String
  | .gestureMisread => "Recalibrate gesture recognition and refresh signal training"
  | .proximityBreach => "Widen the proximity threshold and mark safety zones"
  | .fatigueInduced => "Shorten shifts or add rest breaks beyond eight hours"
  | .crowdingInterference => "Reduce combined worker and robot density in the cell"

/-- Modelled from the spec: echo risks derived deterministically from the
factor contributions above per-type thresholds (§4.2 step 7, missing with
the backend), each probability taken from its contributing factor. -/
def scenarioEchoRisks (t : TaskType) (w r : Nat) (h p : ℚ) : List EchoRisk :=
  (if baseRisk t ≥ 2/5 then
    [⟨.gestureMisread, baseRisk t, echoRiskDescription .gestureMisread⟩] else [])
  ++ (if proximityFactor p > 1/2 then
    [⟨.proximityBreach, proximityFactor p, echoRiskDescription .proximityBreach⟩] else [])
  ++ (if fatigueFactor h > 1/2 then
    [⟨.fatigueInduced, fatigueFactor h, echoRiskDescription .fatigueInduced⟩] else [])
  ++ (if densityFactor w r > 1/2 then
    [⟨.crowdingInterference, densityFactor w r,
      echoRiskDescription .crowdingInterference⟩] else [])

/-- Modelled from the spec: `scoreScenario` of §4.2/§6, missing with the
backend `server.py`.  A pure function of the scenario's task type, worker
count, robot count, shift duration and proximity threshold; the secondary
metrics are monotone in the overall score, symbiosis floored at 2/5 and
mitigation ceilinged at 30. -/
def scoreScenario (s : Scenario) : RiskAssessment :=
  { overall_risk_score := overallScenarioRisk s.task_type s.worker_count
      s.robot_count s.shift_duration_hours s.proximity_threshold_meters
    risk_level := bucketRisk (overallScenarioRisk s.task_type s.worker_count
      s.robot_count s.shift_duration_hours s.proximity_threshold_meters)
    gesture_accuracy := 19/20
    mitigated_errors_percent := 30 - 15 * overallScenarioRisk s.task_type
      s.worker_count s.robot_count s.shift_duration_hours
      s.proximity_threshold_meters
    symbiosis_index := max (2/5) (1 - (3/5) * overallScenarioRisk s.task_type
      s.worker_count s.robot_count s.shift_duration_hours
      s.proximity_threshold_meters)
    echo_risks := scenarioEchoRisks s.task_type s.worker_count s.robot_count
      s.shift_duration_hours s.proximity_threshold_meters
    recommendations := ((scenarioEchoRisks s.task_type s.worker_count
      s.robot_count s.shift_duration_hours
      s.proximity_threshold_meters).map (fun e => recommendationFor e.etype)).dedup
    anomalies := []
    reservoir_details := none }

/-! ## Risk scoring engine — sequence path (anomaly detection)

Modelled from the spec: the backend gesture-sequence analysis
(`/api/gestures/analyze`, absent from the source tree) per §4.3. -/

/-- Minimum number of gesture samples required by the sequence path. -/
def minBufferLength : Nat := 10

/-- Number of consecutive-sample gesture-type changes in a buffer. -/
def countTransitions : List GestureSample → Nat
  | [] => 0
  | [_] => 0
  | a :: b :: rest =>
      (if a.gesture_type = b.gesture_type then 0 else 1)
        + countTransitions (b :: rest)

/-- Modelled from the spec: the fraction of consecutive-sample gesture-type
transitions across the buffer (§4.3 rapid changes, missing with the
backend). -/
def transitionFraction (buf : List GestureSample) : ℚ :=
  (countTransitions buf : ℚ) / ((buf.length - 1 : Nat) : ℚ)

/-- Modelled from the spec: the fraction of samples with confidence below
0.7 (§4.3 low confidence, missing with the backend). -/
def lowConfFraction (buf : List GestureSample) : ℚ :=
  ((buf.countP (fun s => decide (s.confidence < 7/10))) : ℚ) / (buf.length : ℚ)

/-- Mean of a list of rationals (0 for the empty list). -/
def meanQ (xs : List ℚ) : ℚ := xs.sum / (xs.length : ℚ)

/-- Population variance of a list of rationals. -/
def varQ (xs : List ℚ) : ℚ :=
  ((xs.map (fun z => (z - meanQ xs) ^ 2)).sum) / (xs.length : ℚ)

/-- Modelled from the spec: the variance of the position x, y coordinates
across the buffer (§4.3 erratic movement, missing with the backend),
averaged over the two coordinates. -/
def positionVariance (buf : List GestureSample) : ℚ :=
  (varQ (buf.map (fun s => s.position.x))
    + varQ (buf.map (fun s => s.position.y))) / 2

/-- Componentwise mean of the encoded feature vectors of a buffer. -/
def meanFeatureVector (buf : List GestureSample) : List ℚ :=
  (buf.foldl (fun acc s => List.zipWith (· + ·) acc (encodeSample s))
    (List.replicate 10 0)).map (fun q => q / (buf.length : ℚ))

/-- Modelled from the spec: the deterministic activation proxy (§4.3
unusual pattern, missing with the backend): normalized magnitude of the
mean feature vector. -/
def reservoirActivation (buf : List GestureSample) : ℚ :=
  ((meanFeatureVector buf).map (fun q => |q|)).sum / 10

/-- Modelled from the spec: the four independent anomaly checks of §4.3,
missing with the backend; each flagged check contributes one anomaly record
with its contributing metric value. -/
def detectAnomalies (buf : List GestureSample) : List Anomaly :=
  (if transitionFraction buf > 1/2 then
    [⟨"rapid_changes", transitionFraction buf⟩] else [])
  ++ (if lowConfFraction buf > 3/10 then
    [⟨"low_confidence", lowConfFraction buf⟩] else [])
  ++ (if positionVariance buf > 1 then
    [⟨"erratic_movement", positionVariance buf⟩] else [])
  ++ (if reservoirActivation buf > 1/2 then
    [⟨"unusual_pattern", reservoirActivation buf⟩] else [])

/-- Modelled from the spec: the overall sequence risk score, a documented
monotone function of the number of flagged anomalies (§4.3, missing with
the backend). -/
def sequenceRisk (buf : List GestureSample) : ℚ :=
  clamp01 (1/10 + (1/5) * ((detectAnomalies buf).length : ℚ))

/-- Static advisory string per flagged anomaly kind. -/
def anomalyRecommendation (a : Anomaly) : String :=
  if a.atype = "rapid_changes" then "Stabilize gesture commands; avoid rapid signal changes"
  else if a.atype = "low_confidence" then "Improve lighting or reposition hands for clearer gestures"
  else if a.atype = "erratic_movement" then "Keep hand movements steady within the work zone"
  else "Review the gesture stream for unusual interaction patterns"

/-- Modelled from the spec: the assessment produced by the sequence path
for an accepted buffer (§4.3, missing with the backend), with the
reservoir details recording activation, state variance, buffer length
consumed and the count of flagged anomalies. -/
def mkSequenceAssessment (buf : List GestureSample) : RiskAssessment :=
  { overall_risk_score := sequenceRisk buf
    risk_level := bucketRisk (sequenceRisk buf)
    gesture_accuracy := clamp01 (meanQ (buf.map (fun s => s.confidence)))
    mitigated_errors_percent := 30 - 15 * sequenceRisk buf
    symbiosis_index := max (2/5) (1 - (3/5) * sequenceRisk buf)
    echo_risks := []
    recommendations := ((detectAnomalies buf).map anomalyRecommendation).dedup
    anomalies := detectAnomalies buf
    reservoir_details := some
      { activation := reservoirActivation buf
        state_variance := positionVariance buf
        gestures_analyzed := buf.length
        anomalies_detected := (detectAnomalies buf).length
        model_type := "deterministic_proxy" } }

/-- Modelled from the spec: `scoreGestureBuffer` of §4.3/§6, missing with
the backend `server.py`: a buffer shorter than the minimum of 10 is
rejected with `insufficientData` and no assessment is produced; otherwise
the sequence-path assessment is returned. -/
def scoreGestureBuffer (buf : List GestureSample) :
    Except ScoringError RiskAssessment :=
  if buf.length < minBufferLength then .error .insufficientData
  else .ok (mkSequenceAssessment buf)

/-! ## Concrete demonstration inputs -/

/-- A concrete draft scenario matching the "Standard Assembly" preset. -/
def demoScenario : Scenario :=
  { id := "s-1", name := "Standard Assembly", task_type := .assemblyLine
    worker_count := 5, robot_count := 3, shift_duration_hours := 8
    proximity_threshold_meters := 3/2, description := none
    status := .draft, created_at := "2026-01-10" }

/-- A scenario with the same scoring fields as `demoScenario` but different
identity, name, description and status. -/
def demoScenarioB : Scenario :=
  { id := "s-2", name := "Assembly copy", task_type := .assemblyLine
    worker_count := 5, robot_count := 3, shift_duration_hours := 8
    proximity_threshold_meters := 3/2, description := some "copy"
    status := .analyzed, created_at := "2026-01-11" }

/-- A concrete gesture sample at position (-5, -5) with confidence 0.5. -/
def demoSampleA : GestureSample :=
  { gesture_type := "stop", confidence := 1/2
    position := { x := -5, y := -5, z := 0 }, timestamp := "t0", source := "demo" }

/-- A concrete gesture sample at position (5, 5) with confidence 0.5. -/
def demoSampleB : GestureSample :=
  { gesture_type := "proceed", confidence := 1/2
    position := { x := 5, y := 5, z := 0 }, timestamp := "t1", source := "demo" }

/-- A steady high-confidence sample used for short buffers. -/
def demoSteadySample : GestureSample :=
  { gesture_type := "stop", confidence := 9/10
    position := { x := 0, y := 1, z := 0 }, timestamp := "t", source := "demo" }

/-- A buffer of 9 identical samples, one below the sequence-path minimum. -/
def demoBuffer9 : List GestureSample := List.replicate 9 demoSteadySample

/-- A buffer of 10 samples alternating gesture type every sample, all at
confidence 0.5, with positions oscillating between (-5, -5) and (5, 5). -/
def demoAltBuffer : List GestureSample :=
  [demoSampleA, demoSampleB, demoSampleA, demoSampleB, demoSampleA,
   demoSampleB, demoSampleA, demoSampleB, demoSampleA, demoSampleB]

/-- A concrete wave gesture sample. -/
def demoWaveSample : GestureSample :=
  { gesture_type := "wave", confidence := 87/100
    position := { x := 1/4, y := 1/2, z := 0 }, timestamp := "t", source := "demo" }

/-! ## Helper lemmas -/

theorem clamp01_mono {a b : ℚ} (h : a ≤ b) : clamp01 a ≤ clamp01 b :=
  max_le_max le_rfl (min_le_min le_rfl h)

theorem fatigueFactor_mono {a b : ℚ} (h : a ≤ b) :
    fatigueFactor a ≤ fatigueFactor b := by
  unfold fatigueFactor
  split_ifs with ha hb hc
  · exact le_rfl
  · exact le_min (by norm_num) (by linarith)
  · exact absurd (le_trans h hc) ha
  · exact min_le_min le_rfl (by linarith)

theorem proximityFactor_anti {a b : ℚ} (h : a ≤ b) :
    proximityFactor b ≤ proximityFactor a := by
  unfold proximityFactor
  exact clamp01_mono (by linarith)

/-! ## Claim theorems -/

/-- C1: `scoreScenario` is a deterministic pure function of the scenario's
task type, worker count, robot count, shift duration and proximity
threshold: any two scenarios agreeing on those fields — in particular two
invocations with identical input — produce identical `RiskAssessment`
outputs, with no hidden state or randomness in the model. -/
theorem scoreScenario_deterministic (s1 s2 : Scenario)
    (ht : s1.task_type = s2.task_type)
    (hw : s1.worker_count = s2.worker_count)
    (hr : s1.robot_count = s2.robot_count)
    (hh : s1.shift_duration_hours = s2.shift_duration_hours)
    (hp : s1.proximity_threshold_meters = s2.proximity_threshold_meters) :
    scoreScenario s1 = scoreScenario s2 := by
  unfold scoreScenario
  rw [ht, hw, hr, hh, hp]

/-- Witness for C1: two concrete scenarios differing only in identity
fields receive identical assessments. -/
theorem scoreScenario_deterministic_witness :
    demoScenario.task_type = demoScenarioB.task_type
    ∧ demoScenario.worker_count = demoScenarioB.worker_count
    ∧ scoreScenario demoScenario = scoreScenario demoScenarioB :=
  ⟨rfl, rfl, scoreScenario_deterministic demoScenario demoScenarioB
    rfl rfl rfl rfl rfl⟩

/-- C2: `scoreGestureBuffer` rejects every buffer shorter than the minimum
of 10 samples with `insufficientData` and produces no assessment, and
succeeds with an assessment on every buffer of at least 10 samples. -/
theorem scoreGestureBuffer_minimum :
    (∀ buf : List GestureSample, buf.length < minBufferLength →
      scoreGestureBuffer buf = .error .insufficientData)
    ∧ (∀ buf : List GestureSample, minBufferLength ≤ buf.length →
      ∃ a, scoreGestureBuffer buf = .ok a) := by
  constructor
  · intro buf h
    simp [scoreGestureBuffer, h]
  · intro buf h
    refine ⟨mkSequenceAssessment buf, ?_⟩
    simp [scoreGestureBuffer, Nat.not_lt.mpr h]

/-- Witness for C2: a concrete 9-sample buffer fails with
`insufficientData` while a concrete 10-sample buffer succeeds. -/
theorem scoreGestureBuffer_minimum_witness :
    demoBuffer9.length < minBufferLength
    ∧ scoreGestureBuffer demoBuffer9 = .error .insufficientData
    ∧ minBufferLength ≤ demoAltBuffer.length
    ∧ ∃ a, scoreGestureBuffer demoAltBuffer = .ok a :=
  ⟨by decide, scoreGestureBuffer_minimum.1 demoBuffer9 (by decide),
   by decide, scoreGestureBuffer_minimum.2 demoAltBuffer (by decide)⟩

/-- C7: appending a newly classified sample to the gesture buffer (the
source does `[...prev, newGesture].slice(-50)`) always leaves at most 50
samples, exactly `min (n+1) 50` of them, and what is kept is a suffix of
the appended sequence — the most recent samples in order. -/
theorem gestureBuffer_bounded (buf : List RawGestureSample)
    (g : RawGestureSample) :
    (appendGesture buf g).length ≤ 50
    ∧ (appendGesture buf g).length = min (buf.length + 1) 50
    ∧ appendGesture buf g <:+ buf ++ [g] := by
  refine ⟨?_, ?_, List.drop_suffix _ _⟩
  · simp only [appendGesture, sliceLast, List.length_drop, List.length_append,
      List.length_singleton]
    omega
  · simp only [appendGesture, sliceLast, List.length_drop, List.length_append,
      List.length_singleton]
    omega

/-- C10: the webcam adapter's gesture label mapping stays within the
closed vocabulary: every MediaPipe label maps into
stop/proceed/slow_down/point/wave/unknown, with Closed_Fist and Open_Palm
both mapped to stop and Victory to proceed, and never to handover or
emergency. -/
theorem webcam_vocab_closed (label : String) :
    mapGestureLabel label ∈
      (["stop", "proceed", "slow_down", "point", "wave", "unknown"] : List String)
    ∧ mapGestureLabel "Closed_Fist" = "stop"
    ∧ mapGestureLabel "Open_Palm" = "stop"
    ∧ mapGestureLabel "Victory" = "proceed"
    ∧ mapGestureLabel label ≠ "handover"
    ∧ mapGestureLabel label ≠ "emergency" := by
  refine ⟨?_, by decide, by decide, by decide, ?_, ?_⟩ <;>
    · unfold mapGestureLabel GESTURE_TYPE_MAP
      split_ifs <;> simp

/-- C9: every sample built by the webcam adapter carries a position: when
no hand landmark is available the default position (0, 1, 0) — not the
zero vector — is substituted, so the raw encoder's missing-position
`invalidInput` branch never fires on adapter output. -/
theorem webcam_position_present (gestureName : String) (conf : ℚ)
    (lm : Option Landmark) (ts : String) :
    (∃ v, encodeRawSample (mkWebcamSample gestureName conf lm ts) = .ok v)
    ∧ (mkWebcamSample gestureName conf none ts).position
        = some { x := 0, y := 1, z := 0 }
    ∧ ({ x := 0, y := 1, z := 0 } : Position) ≠ { x := 0, y := 0, z := 0 } := by
  refine ⟨?_, rfl, by decide⟩
  cases lm <;> exact ⟨_, rfl⟩

/-- C3: for two scenarios agreeing on worker count, robot count, shift
duration and proximity threshold, a task type in material_handling or
collaborative_work scores at least as high an overall risk as one in
assembly_line or quality_check. -/
theorem taskType_risk_ordering (s1 s2 : Scenario)
    (hw : s1.worker_count = s2.worker_count)
    (hr : s1.robot_count = s2.robot_count)
    (hh : s1.shift_duration_hours = s2.shift_duration_hours)
    (hp : s1.proximity_threshold_meters = s2.proximity_threshold_meters)
    (h1 : s1.task_type = .materialHandling ∨ s1.task_type = .collaborativeWork)
    (h2 : s2.task_type = .assemblyLine ∨ s2.task_type = .qualityCheck) :
    (scoreScenario s2).overall_risk_score ≤ (scoreScenario s1).overall_risk_score := by
  have hb : baseRisk s2.task_type ≤ baseRisk s1.task_type := by
    rcases h1 with h1 | h1 <;> rcases h2 with h2 | h2 <;>
      rw [h1, h2] <;> norm_num [baseRisk]
  show overallScenarioRisk s2.task_type s2.worker_count s2.robot_count
      s2.shift_duration_hours s2.proximity_threshold_meters
    ≤ overallScenarioRisk s1.task_type s1.worker_count s1.robot_count
      s1.shift_duration_hours s1.proximity_threshold_meters
  unfold overallScenarioRisk
  rw [← hw, ← hr, ← hh, ← hp]
  exact clamp01_mono (by linarith)

/-- Witness for C3: a concrete material_handling scenario scores at least
as high as the otherwise-identical assembly_line scenario. -/
theorem taskType_risk_ordering_witness :
    ({ demoScenario with task_type := .materialHandling } : Scenario).task_type
      = .materialHandling
    ∧ demoScenario.task_type = .assemblyLine
    ∧ (scoreScenario demoScenario).overall_risk_score
        ≤ (scoreScenario { demoScenario with task_type := .materialHandling }).overall_risk_score :=
  ⟨rfl, rfl, taskType_risk_ordering { demoScenario with task_type := .materialHandling }
    demoScenario rfl rfl rfl rfl (Or.inl rfl) (Or.inl rfl)⟩

/-- C4: holding the other scenario fields fixed, lengthening the shift past
the 8-hour fatigue threshold never lowers the overall risk score, and
shrinking the proximity threshold never lowers the overall risk score. -/
theorem shift_proximity_monotonicity (s : Scenario) (h1 h2 p1 p2 : ℚ) :
    (8 ≤ h1 → h1 ≤ h2 →
      (scoreScenario { s with shift_duration_hours := h1 }).overall_risk_score
        ≤ (scoreScenario { s with shift_duration_hours := h2 }).overall_risk_score)
    ∧ (p2 ≤ p1 →
      (scoreScenario { s with proximity_threshold_meters := p1 }).overall_risk_score
        ≤ (scoreScenario { s with proximity_threshold_meters := p2 }).overall_risk_score) := by
  constructor
  · intro _ hle
    show overallScenarioRisk s.task_type s.worker_count s.robot_count h1
        s.proximity_threshold_meters
      ≤ overallScenarioRisk s.task_type s.worker_count s.robot_count h2
        s.proximity_threshold_meters
    unfold overallScenarioRisk
    exact clamp01_mono (by linarith [fatigueFactor_mono hle])
  · intro hle
    show overallScenarioRisk s.task_type s.worker_count s.robot_count
        s.shift_duration_hours p1
      ≤ overallScenarioRisk s.task_type s.worker_count s.robot_count
        s.shift_duration_hours p2
    unfold overallScenarioRisk
    exact clamp01_mono (by linarith [proximityFactor_anti hle])

/-- Witness for C4: going from an 8-hour to a 10-hour shift, and from a
1.5 m to a 1.0 m proximity threshold, never lowers the concrete score. -/
theorem shift_proximity_monotonicity_witness :
    (8 : ℚ) ≤ 8 ∧ (8 : ℚ) ≤ 10 ∧ (1 : ℚ) ≤ 3/2
    ∧ (scoreScenario { demoScenario with shift_duration_hours := 8 }).overall_risk_score
        ≤ (scoreScenario { demoScenario with shift_duration_hours := 10 }).overall_risk_score
    ∧ (scoreScenario { demoScenario with proximity_threshold_meters := 3/2 }).overall_risk_score
        ≤ (scoreScenario { demoScenario with proximity_threshold_meters := 1 }).overall_risk_score :=
  ⟨le_refl 8, by norm_num, by norm_num,
   (shift_proximity_monotonicity demoScenario 8 10 (3/2) 1).1 (le_refl 8) (by norm_num),
   (shift_proximity_monotonicity demoScenario 8 10 (3/2) 1).2 (by norm_num)⟩

/-- C8: risk-level bucketing uses the documented thresholds 0.3, 0.55 and
0.8 with the half-open convention — a score equal to a threshold maps to
the higher bucket — for every score in [0, 1], and both the scenario path
and the sequence path bucket their overall score through the same
`bucketRisk`. -/
theorem risk_bucketing_thresholds (q : ℚ) (hq0 : 0 ≤ q) (hq1 : q ≤ 1) :
    (bucketRisk q = .low ↔ q < 3/10)
    ∧ (bucketRisk q = .medium ↔ 3/10 ≤ q ∧ q < 11/20)
    ∧ (bucketRisk q = .high ↔ 11/20 ≤ q ∧ q < 4/5)
    ∧ (bucketRisk q = .critical ↔ 4/5 ≤ q)
    ∧ bucketRisk (3/10) = .medium
    ∧ bucketRisk (11/20) = .high
    ∧ bucketRisk (4/5) = .critical
    ∧ (∀ s : Scenario,
        (scoreScenario s).risk_level = bucketRisk (scoreScenario s).overall_risk_score)
    ∧ (∀ (buf : List GestureSample) (a : RiskAssessment),
        scoreGestureBuffer buf = .ok a →
        a.risk_level = bucketRisk a.overall_risk_score) := by
  refine ⟨?_, ?_, ?_, ?_, by norm_num [bucketRisk], by norm_num [bucketRisk],
    by norm_num [bucketRisk], fun s => rfl, ?_⟩
  · unfold bucketRisk
    split_ifs with hA hB hC <;> simp_all <;> linarith
  · unfold bucketRisk
    split_ifs with hA hB hC <;> simp_all <;> intro h <;> linarith
  · unfold bucketRisk
    split_ifs with hA hB hC <;> simp_all <;> intro h <;> linarith
  · unfold bucketRisk
    split_ifs with hA hB hC <;> simp_all <;> linarith
  · intro buf a h
    unfold scoreGestureBuffer at h
    split at h
    · cases h
    · cases h
      rfl

/-- Witness for C8: the boundary score 0.3 lies in [0, 1] and maps to
`medium`, not `low`. -/
theorem risk_bucketing_thresholds_witness :
    (0 : ℚ) ≤ 3/10 ∧ (3 : ℚ)/10 ≤ 1 ∧ bucketRisk (3/10) = .medium :=
  ⟨by norm_num, by norm_num,
   (risk_bucketing_thresholds (3/10) (by norm_num) (by norm_num)).2.2.2.2.1⟩

/-- C5: `encodeSample` returns a vector of length exactly 10: slots 0-6 are
a one-hot over the canonical vocabulary (exactly one 1 for a recognized
label, all zeros for an unrecognized one), slot 7 is the confidence
unchanged, and slots 8-9 are position x and y with z dropped. -/
theorem encodeSample_onehot (s : GestureSample) :
    (encodeSample s).length = 10
    ∧ (encodeSample s).drop 7 = [s.confidence, s.position.x, s.position.y]
    ∧ (s.gesture_type ∈ gestureVocab →
        ((encodeSample s).take 7).count 1 = 1
        ∧ ((encodeSample s).take 7).getD (gestureVocab.indexOf s.gesture_type) 0 = 1
        ∧ ∀ q ∈ (encodeSample s).take 7, q = 0 ∨ q = 1)
    ∧ (s.gesture_type ∉ gestureVocab →
        (encodeSample s).take 7 = List.replicate 7 0) := by
  have hlen : (gestureVocab.map
      (fun v => if s.gesture_type = v then (1 : ℚ) else 0)).length = 7 := by
    simp [gestureVocab]
  have htake : (encodeSample s).take 7
      = gestureVocab.map (fun v => if s.gesture_type = v then (1 : ℚ) else 0) := by
    rw [encodeSample, List.take_left' hlen]
  have hdrop : (encodeSample s).drop 7
      = [s.confidence, s.position.x, s.position.y] := by
    rw [encodeSample, List.drop_left' hlen]
  refine ⟨by rw [encodeSample]; simp [gestureVocab], hdrop, ?_, ?_⟩
  · intro hmem
    rw [htake]
    simp only [gestureVocab, List.mem_cons, List.not_mem_nil, or_false] at hmem
    rcases hmem with h | h | h | h | h | h | h <;> rw [h] <;>
      exact ⟨by simp +decide [gestureVocab, List.count_cons],
        by simp +decide [gestureVocab, List.indexOf, List.findIdx, List.findIdx.go],
        by simp +decide [gestureVocab]⟩
  · intro hmem
    rw [htake]
    simp only [gestureVocab, List.mem_cons, List.not_mem_nil, or_false,
      not_or] at hmem
    obtain ⟨h1, h2, h3, h4, h5, h6, h7⟩ := hmem
    simp [gestureVocab, h1, h2, h3, h4, h5, h6, h7, List.replicate]

/-- Witness for C5: encoding a concrete wave sample puts its single 1 at
the wave slot and carries confidence, x and y behind the one-hot part. -/
theorem encodeSample_onehot_witness :
    demoWaveSample.gesture_type ∈ gestureVocab
    ∧ ((encodeSample demoWaveSample).take 7).count 1 = 1
    ∧ ((encodeSample demoWaveSample).take 7).getD
        (gestureVocab.indexOf demoWaveSample.gesture_type) 0 = 1
    ∧ (encodeSample demoWaveSample).drop 7 = [87/100, 1/4, 1/2] := by
  have hm : demoWaveSample.gesture_type ∈ gestureVocab := by decide
  have h := encodeSample_onehot demoWaveSample
  exact ⟨hm, (h.2.2.1 hm).1, (h.2.2.1 hm).2.1, h.2.1⟩

/-- C6: on every buffer accepted by `scoreGestureBuffer`, a transition
fraction above 0.5 flags rapid changes, a low-confidence fraction above
0.3 flags low confidence, a position variance above 1 flags erratic
movement, and the reservoir details count exactly the flagged anomaly
checks. -/
theorem anomaly_flags (buf : List GestureSample) (a : RiskAssessment)
    (h : scoreGestureBuffer buf = .ok a) :
    (transitionFraction buf > 1/2 →
      Anomaly.mk "rapid_changes" (transitionFraction buf) ∈ a.anomalies)
    ∧ (lowConfFraction buf > 3/10 →
      Anomaly.mk "low_confidence" (lowConfFraction buf) ∈ a.anomalies)
    ∧ (positionVariance buf > 1 →
      Anomaly.mk "erratic_movement" (positionVariance buf) ∈ a.anomalies)
    ∧ ∃ rd, a.reservoir_details = some rd
        ∧ rd.anomalies_detected = a.anomalies.length := by
  have ha : a = mkSequenceAssessment buf := by
    unfold scoreGestureBuffer at h
    split at h
    · cases h
    · exact (Except.ok.inj h).symm
  subst ha
  refine ⟨?_, ?_, ?_, ⟨_, rfl, rfl⟩⟩ <;> intro hf <;>
    · show _ ∈ detectAnomalies buf
      unfold detectAnomalies
      rw [if_pos hf]
      simp

/-- Witness for C6: the concrete 10-sample buffer alternating gesture type
at confidence 0.5 with positions oscillating between (-5, -5) and (5, 5)
is flagged for rapid changes, low confidence and erratic movement, and
exactly those three anomaly checks are counted. -/
theorem anomaly_flags_witness :
    scoreGestureBuffer demoAltBuffer = .ok (mkSequenceAssessment demoAltBuffer)
    ∧ transitionFraction demoAltBuffer > 1/2
    ∧ Anomaly.mk "rapid_changes" (transitionFraction demoAltBuffer)
        ∈ (mkSequenceAssessment demoAltBuffer).anomalies
    ∧ lowConfFraction demoAltBuffer > 3/10
    ∧ Anomaly.mk "low_confidence" (lowConfFraction demoAltBuffer)
        ∈ (mkSequenceAssessment demoAltBuffer).anomalies
    ∧ positionVariance demoAltBuffer > 1
    ∧ Anomaly.mk "erratic_movement" (positionVariance demoAltBuffer)
        ∈ (mkSequenceAssessment demoAltBuffer).anomalies
    ∧ (mkSequenceAssessment demoAltBuffer).anomalies.length = 3 := by
  have h : scoreGestureBuffer demoAltBuffer
      = .ok (mkSequenceAssessment demoAltBuffer) := rfl
  have htf : transitionFraction demoAltBuffer > 1/2 := by
    norm_num +decide [transitionFraction, countTransitions, demoAltBuffer,
      demoSampleA, demoSampleB]
  have hlc : lowConfFraction demoAltBuffer > 3/10 := by
    norm_num +decide [lowConfFraction, demoAltBuffer, demoSampleA, demoSampleB,
      List.countP_cons, List.countP_nil]
  have hpv : positionVariance demoAltBuffer > 1 := by
    norm_num [positionVariance, varQ, meanQ, demoAltBuffer, demoSampleA,
      demoSampleB]
  have hact : ¬ reservoirActivation demoAltBuffer > 1/2 := by
    norm_num +decide [reservoirActivation, meanFeatureVector, encodeSample,
      gestureVocab, demoAltBuffer, demoSampleA, demoSampleB, List.foldl,
      List.zipWith, abs_of_nonneg]
  have hlen3 : (mkSequenceAssessment demoAltBuffer).anomalies.length = 3 := by
    show (detectAnomalies demoAltBuffer).length = 3
    unfold detectAnomalies
    rw [if_pos htf, if_pos hlc, if_pos hpv, if_neg hact]
    rfl
  have ht := anomaly_flags demoAltBuffer _ h
  exact ⟨h, htf, ht.1 htf, hlc, ht.2.1 hlc, hpv, ht.2.2.1 hpv, hlen3⟩

end OptimusEcho
